import Mathlib

/-
Verification of the design-pattern catalogue repository (f4z3r/patterns).

Each Rust pattern file is shallowly embedded as a Lean namespace: traits with a
single implementor become plain functions, trait objects with several
implementors become inductive types, mutable objects are threaded explicitly as
state, Rust panics become Except.error values, f32 values that only ever hold
exactly representable decimals are modelled as rationals, and u8/u32 arithmetic
is reduced modulo 2^8 / 2^32 where it occurs.  Each file's unit test is
embedded as a Bool-valued computation that evaluates every assertion of the
test in order.
-/

namespace AbstractFactory

/-- Buttons produced by the abstract factories (trait objects of trait Button:
LinuxButton, OSXButton and DebianButton). -/
inductive ButtonObj where
  | linux
  | osx
  | debian
  deriving DecidableEq

/-- Embeds Button::paint of each concrete button. -/
def ButtonObj.paint : ButtonObj → String
  | .linux => "LinuxButton"
  | .osx => "OSXButton"
  | .debian => "DebianButton"

/-- Windows produced by the abstract factories (trait objects of trait Window:
LinuxWindow, OSXWindow and DebianWindow). -/
inductive WindowObj where
  | linux
  | osx
  | debian
  deriving DecidableEq

/-- Embeds Window::size of each concrete window. -/
def WindowObj.size : WindowObj → Nat × Nat
  | .linux => (400, 400)
  | .osx => (800, 800)
  | .debian => (1600, 1600)

/-- Embeds impl Factory for Linux, create_button. -/
def linuxCreateButton : ButtonObj := .linux

/-- Embeds impl Factory for Linux, create_window. -/
def linuxCreateWindow : WindowObj := .linux

/-- Embeds impl Factory for OSX, create_button. -/
def osxCreateButton : ButtonObj := .osx

/-- Embeds impl Factory for OSX, create_window. -/
def osxCreateWindow : WindowObj := .osx

/-- Embeds impl Factory2 for Debian, create_button. -/
def debianCreateButton : ButtonObj := .debian

/-- Embeds impl Factory2 for Debian, create_window. -/
def debianCreateWindow : WindowObj := .debian

/-- Embeds tests::test_abstract_factory: all six assertions of the unit test. -/
def testB : Bool :=
  decide (osxCreateButton.paint = "OSXButton")
    && decide (osxCreateWindow.size = (800, 800))
    && decide (linuxCreateButton.paint = "LinuxButton")
    && decide (linuxCreateWindow.size = (400, 400))
    && decide (debianCreateButton.paint = "DebianButton")
    && decide (debianCreateWindow.size = (1600, 1600))

end AbstractFactory

namespace Adapter

/-- Embeds IPhone::charge. -/
def iphoneCharge : String := "Is charging"

/-- Embeds USBCharger (the adapter owning the IPhone it charges); the IPhone
field carries no data, so the adapter is a unit structure. -/
structure USBCharger where
  deriving DecidableEq

/-- Embeds impl TargetInterface for USBCharger, recharge. -/
def USBCharger.recharge (_ : USBCharger) : String :=
  iphoneCharge ++ " using a USB-C adapter"

/-- Embeds Client::do_stuff_with_usb (generic over TargetInterface, whose only
implementor is USBCharger). -/
def clientDoStuffWithUsb (obj : USBCharger) : String :=
  obj.recharge

/-- Embeds tests::test_adapter. -/
def testB : Bool :=
  decide (clientDoStuffWithUsb {} = "Is charging using a USB-C adapter")

end Adapter

namespace Bridge

/-- Implementors of trait DrawingAPI: DrawingRed and DrawingBlue. -/
inductive DrawingImpl where
  | red
  | blue
  deriving DecidableEq

/-- Embeds DrawingAPI::draw_circle of each implementor. -/
def DrawingImpl.drawCircle : DrawingImpl → String
  | .red => "red circle"
  | .blue => "blue circle"

/-- Embeds DrawingAPI::draw_rectangle of each implementor. -/
def DrawingImpl.drawRectangle : DrawingImpl → String
  | .red => "red rectangle"
  | .blue => "blue rectangle"

/-- Embeds ColouredShape, the concrete abstraction owning its implementor. -/
structure ColouredShape where
  api : DrawingImpl
  deriving DecidableEq

/-- Embeds Shape::draw_circle for ColouredShape (delegates to the API). -/
def ColouredShape.drawCircle (s : ColouredShape) : String :=
  s.api.drawCircle

/-- Embeds Shape::draw_rectangle for ColouredShape (delegates to the API). -/
def ColouredShape.drawRectangle (s : ColouredShape) : String :=
  s.api.drawRectangle

/-- Embeds the default method Shape::draw. -/
def ColouredShape.draw (s : ColouredShape) : String :=
  "Shape drawing a " ++ s.drawCircle ++ " and a " ++ s.drawRectangle

/-- Embeds tests::test_bridge. -/
def testB : Bool :=
  decide ((ColouredShape.mk .blue).draw = "Shape drawing a blue circle and a blue rectangle")
    && decide ((ColouredShape.mk .red).draw = "Shape drawing a red circle and a red rectangle")

end Bridge

namespace Builder

/-- Embeds struct Car (wheels and seats are u8; no arithmetic is ever done on
them, so they are carried as plain naturals). -/
structure Car where
  wheels : Nat
  seats : Nat
  colour : String
  deriving DecidableEq

/-- Embeds Car::new. -/
def Car.new : Car :=
  { wheels := 0, seats := 0, colour := "black" }

/-- Embeds Car::description. -/
def Car.description (c : Car) : String :=
  "This is a " ++ c.colour ++ " car with " ++ toString c.wheels
    ++ " wheels and " ++ toString c.seats ++ " seats."

/-- Embeds struct CarBuilder. -/
structure CarBuilder where
  car : Car
  deriving DecidableEq

/-- Embeds CarBuilder::new. -/
def CarBuilder.new : CarBuilder :=
  { car := Car.new }

/-- Embeds Builder::set_wheels for CarBuilder. -/
def CarBuilder.setWheels (b : CarBuilder) (num : Nat) : CarBuilder :=
  { b with car := { b.car with wheels := num } }

/-- Embeds Builder::set_seats for CarBuilder. -/
def CarBuilder.setSeats (b : CarBuilder) (num : Nat) : CarBuilder :=
  { b with car := { b.car with seats := num } }

/-- Embeds Builder::set_colour for CarBuilder. -/
def CarBuilder.setColour (b : CarBuilder) (colour : String) : CarBuilder :=
  { b with car := { b.car with colour := colour } }

/-- Embeds Builder::build for CarBuilder (returns a clone of the car). -/
def CarBuilder.build (b : CarBuilder) : Car :=
  b.car

/-- Embeds CarBuilderDirector::construct, started from
CarBuilderDirector::new. -/
def directorConstruct : Car :=
  (((CarBuilder.new.setColour ("red")).setWheels 4).setSeats 5).build

/-- Embeds tests::test_builder. -/
def testB : Bool :=
  decide (directorConstruct.description = "This is a red car with 4 wheels and 5 seats.")

end Builder

namespace Composite

/-- Embeds trait objects of trait Graphic: either a leaf Ellipse or a
CompositeGraphic owning its children. -/
inductive Graphic where
  | ellipse
  | comp (children : List Graphic)

mutual

/-- Embeds Graphic::print (Ellipse returns "Ellipse"; CompositeGraphic starts
from the empty string and appends each child's print in order). -/
def Graphic.print : Graphic → String
  | .ellipse => "Ellipse"
  | .comp cs => Graphic.printFold cs ""

/-- Embeds the for-loop of impl Graphic for CompositeGraphic: result starts
empty and each child's print is appended. -/
def Graphic.printFold : List Graphic → String → String
  | [], result => result
  | g :: gs, result => Graphic.printFold gs (result ++ g.print)

end

/-- Embeds struct CompositeGraphic. -/
structure CompositeGraphic where
  children : List Graphic

/-- Embeds CompositeGraphic::new. -/
def CompositeGraphic.new : CompositeGraphic :=
  { children := [] }

/-- Embeds CompositeGraphic::add (push at the back). -/
def CompositeGraphic.add (c : CompositeGraphic) (g : Graphic) : CompositeGraphic :=
  { c with children := c.children ++ [g] }

/-- Embeds CompositeGraphic::remove (pop the last added component). -/
def CompositeGraphic.removeLast (c : CompositeGraphic) : CompositeGraphic :=
  { c with children := c.children.dropLast }

/-- Views a CompositeGraphic as a boxed Graphic trait object. -/
def CompositeGraphic.toGraphic (c : CompositeGraphic) : Graphic :=
  .comp c.children

/-- Embeds tests::test_composite. -/
def testB : Bool :=
  let graphic2 := ((CompositeGraphic.new.add .ellipse).add .ellipse).add .ellipse
  let graphic3 := CompositeGraphic.new.add .ellipse
  let graphic1 := (CompositeGraphic.new.add graphic2.toGraphic).add graphic3.toGraphic
  decide (graphic1.toGraphic.print = "EllipseEllipseEllipseEllipse")

end Composite

namespace Decorator

/-- Formats the fractional digits of n / d (0 < n < d), stopping when the
remainder is zero; fuel bounds the recursion. -/
def fracDigits (n d : Nat) : Nat → String
  | 0 => ""
  | fuel + 1 =>
    let n10 := n * 10
    let digit := n10 / d
    let rem := n10 % d
    toString digit ++ (if rem = 0 then "" else fracDigits rem d fuel)

/-- Models the Rust Display formatting of a non-negative f32 whose value has an
exact finite decimal expansion (the only values the snippets ever format). -/
def fmtQ (q : ℚ) : String :=
  if q.den = 1 then toString q.num
  else toString (q.num / (q.den : Int)) ++ "." ++ fracDigits (q.num.natAbs % q.den) q.den 64

/-- Trait objects of trait Shape: a Circle (f32 radius modelled as ℚ) or a
ColouredShape decorator wrapping an inner shape. -/
inductive ShapeE where
  | circle (radius : ℚ)
  | coloured (shape : ShapeE) (colour : String)

/-- Embeds Shape::description of Circle and of the ColouredShape decorator. -/
def ShapeE.description : ShapeE → String
  | .circle radius => "Circle of radius " ++ fmtQ radius
  | .coloured shape colour => shape.description ++ " which is coloured " ++ colour

/-- Embeds ColouredShape::new. -/
def colouredNew (colour : String) (shape : ShapeE) : ShapeE :=
  .coloured shape colour

/-- Embeds tests::test_decorator. -/
def testB : Bool :=
  let circle := ShapeE.circle (3.5 : ℚ)
  let redCircle := colouredNew ("red") circle
  let greenRedCircle := colouredNew ("green") redCircle
  decide (redCircle.description = "Circle of radius 3.5 which is coloured red")
    && decide (greenRedCircle.description
        = "Circle of radius 3.5 which is coloured red which is coloured green")

end Decorator

namespace Facade

/-- Embeds Parser::run. -/
def parserRun : String := "parsing source code"

/-- Embeds CodeGenerator::run. -/
def codeGeneratorRun : String := "generating machine code"

/-- Embeds Optimiser::run. -/
def optimiserRun : String := "optimising generate machine code"

/-- Embeds Linker::run. -/
def linkerRun : String := "linking code"

/-- Embeds Compiler::run, the facade aggregating the four subsystems. -/
def compilerRun : String :=
  parserRun ++ "\n" ++ codeGeneratorRun ++ "\n" ++ optimiserRun ++ "\n" ++ linkerRun

/-- Embeds tests::test_facade (the expected string is assembled with push_str
exactly as in the test). -/
def testB : Bool :=
  let expResult := (((("parsing source code" : String)
    ++ "\ngenerating machine code")
    ++ "\noptimising generate machine code")
    ++ "\nlinking code")
  decide (compilerRun = expResult)

end Facade

namespace FactoryMethod

/-- Embeds Sedan::get_type (the only Car implementor). -/
def sedanGetType : String := "Sedan"

/-- Embeds SedanFactory::make_car returning a boxed Car whose get_type is
modelled directly by its result string. -/
def sedanFactoryMakeCarType : String := sedanGetType

/-- Embeds BetterSedanFactory::make_car (the CarFactory2 implementor). -/
def betterSedanFactoryMakeCarType : String := sedanGetType

/-- Embeds tests::test_factory_method. -/
def testB : Bool :=
  decide (sedanFactoryMakeCarType = "Sedan")
    && decide (betterSedanFactoryMakeCarType = "Sedan")

end FactoryMethod

namespace IteratorPattern

/-- Embeds struct Fibonacci (u32 fields). -/
structure Fibonacci where
  current : Nat
  next : Nat
  deriving DecidableEq

/-- Embeds impl Iterator for Fibonacci, fn next (u32 addition is reduced
modulo 2^32). -/
def Fibonacci.advance (f : Fibonacci) : Option Nat × Fibonacci :=
  let newNext := (f.current + f.next) % 4294967296
  let f2 : Fibonacci := { current := f.next, next := newNext }
  (some f2.current, f2)

/-- Embeds struct CustomList. -/
structure CustomList where
  fib : Fibonacci
  name : String
  deriving DecidableEq

/-- Embeds impl IntoIterator for CustomList, fn into_iter. -/
def CustomList.intoIter (l : CustomList) : Fibonacci :=
  l.fib

/-- Embeds tests::test_iterator: ten successive next() calls on the iterator
obtained from the list. -/
def testB : Bool :=
  let list : CustomList := { name := "my list", fib := { current := 0, next := 1 } }
  let i0 := list.intoIter
  let r1 := i0.advance
  let r2 := r1.2.advance
  let r3 := r2.2.advance
  let r4 := r3.2.advance
  let r5 := r4.2.advance
  let r6 := r5.2.advance
  let r7 := r6.2.advance
  let r8 := r7.2.advance
  let r9 := r8.2.advance
  let r10 := r9.2.advance
  decide (r1.1 = some 1) && decide (r2.1 = some 1) && decide (r3.1 = some 2)
    && decide (r4.1 = some 3) && decide (r5.1 = some 5) && decide (r6.1 = some 8)
    && decide (r7.1 = some 13) && decide (r8.1 = some 21) && decide (r9.1 = some 34)
    && decide (r10.1 = some 55)

end IteratorPattern

namespace Observer

/-- Embeds struct View (the concrete observer). -/
structure View where
  name : String
  deriving DecidableEq

/-- Embeds Observer::update for View (u64 data carried as a natural; it is
only stored and formatted, never computed with). -/
def View.update (v : View) (data : Nat) : String :=
  "View " ++ v.name ++ " got data: " ++ toString data

/-- Embeds struct Model (the concrete subject). -/
structure Model where
  data : Nat
  observers : List View
  deriving DecidableEq

/-- Embeds Observable::notify_observers for Model: the result string starts
empty and each observer's update is appended after a newline. -/
def Model.notifyObservers (m : Model) (data : Nat) : String :=
  m.observers.foldl (fun result observer => result ++ "\n" ++ observer.update data) ""

/-- Embeds Model::register_observer. -/
def Model.registerObserver (m : Model) (observer : View) : Model :=
  { m with observers := m.observers ++ [observer] }

/-- Embeds Model::set_data (stores the data, then notifies). -/
def Model.setData (m : Model) (data : Nat) : String × Model :=
  let m2 := { m with data := data }
  (m2.notifyObservers m2.data, m2)

/-- Embeds tests::test_observer. -/
def testB : Bool :=
  let subject0 : Model := { data := 0, observers := [] }
  let subject := ((subject0.registerObserver { name := "view_0" }).registerObserver
    { name := "view_1" }).registerObserver { name := "view_2" }
  let r1 := subject.setData 24
  let r2 := r1.2.setData 100
  let r3 := r2.2.setData 1130113
  decide (r1.1 = "\nView view_0 got data: 24\nView view_1 got data: 24\nView view_2 got data: 24")
    && decide (r2.1 = "\nView view_0 got data: 100\nView view_1 got data: 100\nView view_2 got data: 100")
    && decide (r3.1
        = "\nView view_0 got data: 1130113\nView view_1 got data: 1130113\nView view_2 got data: 1130113")

end Observer

namespace Prototype

/-- Embeds tests::test_prototype, whose single assertion is assert(true); the
file contains prose only and defines no types. -/
def testB : Bool := true

end Prototype

namespace Proxy

/-- Embeds struct Car (the real subject); a unit structure. -/
structure Car where
  deriving DecidableEq

/-- Embeds impl ICar for Car, fn drive. -/
def Car.drive (_ : Car) : String := "car is driving"

/-- Embeds struct ProxyCar (holds the real car and the driver age, an i32). -/
structure ProxyCar where
  realCar : Car
  driverAge : Int
  deriving DecidableEq

/-- Embeds ProxyCar::new. -/
def ProxyCar.new (driverAge : Int) (otherCar : Car) : ProxyCar :=
  { realCar := otherCar, driverAge := driverAge }

/-- Embeds impl ICar for ProxyCar, fn drive. -/
def ProxyCar.drive (p : ProxyCar) : String :=
  if p.driverAge > 18 then p.realCar.drive else "driver is too young"

/-- Embeds tests::test_proxy. -/
def testB : Bool :=
  let car : Car := {}
  let proxy := ProxyCar.new 16 car
  let proxy2 := ProxyCar.new 19 car
  decide (proxy.drive = "driver is too young")
    && decide (proxy2.drive = "car is driving")

end Proxy

namespace Strategy

/-- Trait objects of trait Algorithm: FastAlgorithm or SlowAlgorithm. -/
inductive Algo where
  | fast
  | slow
  deriving DecidableEq

/-- Embeds Algorithm::run of each concrete strategy. -/
def Algo.run : Algo → String
  | .fast => "very fast algorithm"
  | .slow => "very slow algorithm ..."

/-- Embeds struct SomeObject (the context holding its strategy). -/
structure SomeObject where
  behaviour : Algo
  deriving DecidableEq

/-- Embeds SomeObject::new. -/
def SomeObject.new (alg : Algo) : SomeObject :=
  { behaviour := alg }

/-- Embeds SomeObject::set_behaviour. -/
def SomeObject.setBehaviour (o : SomeObject) (alg : Algo) : SomeObject :=
  { o with behaviour := alg }

/-- Embeds SomeObject::run. -/
def SomeObject.run (o : SomeObject) : String :=
  o.behaviour.run

/-- Embeds tests::test_strategy. -/
def testB : Bool :=
  let object := SomeObject.new .slow
  let object2 := object.setBehaviour .fast
  decide (object.run = "very slow algorithm ...")
    && decide (object2.run = "very fast algorithm")

end Strategy

namespace TemplateMethod

/-- Embeds struct Object (f32 weight modelled as ℚ; the test only uses small
integer weights). -/
structure Object where
  name : String
  weight : ℚ
  deriving DecidableEq

/-- Embeds Object::new. -/
def Object.new (name : String) (weight : ℚ) : Object :=
  { name := name, weight := weight }

/-- Embeds impl Ord for Object, fn cmp: weight first, then name. -/
def Object.cmp (a b : Object) : Ordering :=
  if a.weight < b.weight then .lt
  else if a.weight > b.weight then .gt
  else if a.name < b.name then .lt
  else if a.name > b.name then .gt
  else .eq

/-- Inserts an element into an already sorted list, after all elements that do
not compare greater than it (the stable insertion used to model Vec::sort). -/
def sortInsert (x : Object) : List Object → List Object
  | [] => [x]
  | y :: ys => if x.cmp y = .lt then x :: y :: ys else y :: sortInsert x ys

/-- Models Vec::sort (a stable sort by Ord::cmp) as a stable insertion sort. -/
def sortByCmp (l : List Object) : List Object :=
  l.foldl (fun acc x => sortInsert x acc) []

/-- Embeds tests::test_template_method. -/
def testB : Bool :=
  let objects := [Object.new ("object1") 3, Object.new ("object2") 2,
    Object.new ("object3") 1, Object.new ("object4") 4, Object.new ("object5") 5]
  let sorted := sortByCmp objects
  decide ((sorted[0]?).map Object.name = some ("object3"))
    && decide ((sorted[1]?).map Object.name = some ("object2"))
    && decide ((sorted[2]?).map Object.name = some ("object1"))
    && decide ((sorted[3]?).map Object.name = some ("object4"))
    && decide ((sorted[4]?).map Object.name = some ("object5"))

end TemplateMethod

namespace Chain

/-- Embeds struct PurchaseRequest (u32 amount; it is only compared, never
computed with). -/
structure PurchaseRequest where
  amount : Nat
  purpose : String
  deriving DecidableEq

/-- Embeds PurchaseRequest::new. -/
def PurchaseRequest.new (amount : Nat) (purpose : String) : PurchaseRequest :=
  { amount := amount, purpose := purpose }

/-- Embeds struct Employee, the only PurchasePower implementor: a handler with
its category, allowable amount, and optional boxed successor. -/
inductive Employee where
  | mk (category : String) (allowable : Nat) (successor : Option Employee)

/-- Embeds Employee::new (no successor yet). -/
def Employee.new (category : String) (allowable : Nat) : Employee :=
  .mk category allowable none

/-- Embeds PurchasePower::set_successor for Employee. -/
def Employee.setSuccessor : Employee → Employee → Employee
  | .mk c a _, succ => .mk c a (some succ)

/-- Approval message built by the default method PurchasePower::process_request
when a handler approves a request. -/
def approveMsg (category : String) (amount : Nat) (purpose : String) : String :=
  category ++ " will approve $" ++ toString amount ++ " for " ++ purpose

/-- Message returned by PurchasePower::process_request when the end of the
chain is reached without an approval. -/
def tooHigh : String := "Request amount is too high"

/-- Embeds the default method PurchasePower::process_request: approve when the
amount is strictly below the handler's allowable, otherwise forward to the
successor, or report the amount as too high at the end of the chain. -/
def Employee.processRequest : Employee → PurchaseRequest → String
  | .mk c a none, req =>
    if req.amount < a then approveMsg c req.amount req.purpose
    else tooHigh
  | .mk c a (some successor), req =>
    if req.amount < a then approveMsg c req.amount req.purpose
    else successor.processRequest req

/-- Lists the (category, allowable) pairs of a chain in chain order. -/
def Employee.handlers : Employee → List (String × Nat)
  | .mk c a none => [(c, a)]
  | .mk c a (some successor) => (c, a) :: successor.handlers

/-- Embeds tests::test_chain_of_responsibility: the chain manager, director,
vice-president, president and the five asserted requests. -/
def testB : Bool :=
  let president := Employee.new ("president") 40000
  let vp := (Employee.new ("vice-president") 20000).setSuccessor president
  let director := (Employee.new ("director") 10000).setSuccessor vp
  let manager := (Employee.new ("manager") 5000).setSuccessor director
  decide (manager.processRequest (PurchaseRequest.new 12000 ("general expenses"))
      = "vice-president will approve $12000 for general expenses")
    && decide (manager.processRequest (PurchaseRequest.new 1000000 ("buy a house"))
      = "Request amount is too high")
    && decide (manager.processRequest (PurchaseRequest.new 500 ("desk repair"))
      = "manager will approve $500 for desk repair")
    && decide (manager.processRequest (PurchaseRequest.new 35000 ("company car"))
      = "president will approve $35000 for company car")
    && decide (manager.processRequest (PurchaseRequest.new 9000 ("retreat event"))
      = "director will approve $9000 for retreat event")

end Chain

namespace Command

/-- Embeds Light::turn_on. -/
def lightTurnOn : String := "light turned on"

/-- Embeds Light::turn_off. -/
def lightTurnOff : String := "light turned off"

/-- Embeds trait objects of trait Command: LightOnCommand or LightOffCommand
(the Light they hold is a unit value). -/
inductive Cmd where
  | lightOn
  | lightOff
  deriving DecidableEq

/-- Embeds Command::execute of each concrete command. -/
def Cmd.execute : Cmd → String
  | .lightOn => lightTurnOn
  | .lightOff => lightTurnOff

/-- Embeds struct Switch (the light is a unit value; the history is the
VecDeque of issued commands, pushed at the back). -/
structure Switch where
  history : List Cmd
  deriving DecidableEq

/-- Embeds Switch::new. -/
def Switch.new : Switch :=
  { history := [] }

/-- Embeds Switch::execute_command; the panic on an unexpected command string
is modelled as Except.error carrying the panic message. -/
def Switch.executeCommand (s : Switch) (cmd : String) : Except String (String × Switch) :=
  match (match cmd with
    | "ON" => some Cmd.lightOn
    | "OFF" => some Cmd.lightOff
    | _ => none) with
  | none => .error "Unexpected command"
  | some command =>
    let result := match command.execute with
      | "light turned on" => "light turned on"
      | "light turned off" => "light turned off"
      | _ => "unexpected result"
    .ok (result, { s with history := s.history ++ [command] })

/-- Embeds tests::test_command and tests::test_wrong_command (the latter is a
should_panic test expecting the message "Unexpected command"). -/
def testB : Bool :=
  (match Switch.new.executeCommand ("ON") with
    | .ok (r1, s1) => decide (r1 = "light turned on")
      && (match s1.executeCommand ("OFF") with
        | .ok (r2, s2) => decide (r2 = "light turned off")
          && (match s2.executeCommand ("ON") with
            | .ok (r3, s3) => decide (r3 = "light turned on")
              && (match s3.executeCommand ("ON") with
                | .ok (r4, _) => decide (r4 = "light turned on")
                | .error _ => false)
            | .error _ => false)
        | .error _ => false)
    | .error _ => false)
  && (match Switch.new.executeCommand ("Random_command") with
    | .error msg => decide (msg = "Unexpected command")
    | .ok _ => false)

end Command

namespace F32

/-- Power of two as a rational, for an arbitrary integer exponent. -/
def pow2 (e : Int) : ℚ :=
  if 0 ≤ e then mkRat (2 ^ e.toNat) 1 else mkRat 1 (2 ^ (-e).toNat)

/-- Base-two logarithm on naturals, rounded down, by structural recursion on
a fuel bound (log2fuel n n computes the floor of log2 n for 1 ≤ n). -/
def log2fuel : Nat → Nat → Nat
  | 0, _ => 0
  | fuel + 1, n => if 2 ≤ n then log2fuel fuel (n / 2) + 1 else 0

/-- Base-two logarithm of a natural number, rounded down. -/
def natLog2 (n : Nat) : Nat :=
  log2fuel n n

/-- Base-two logarithm of a positive rational, rounded down: the unique e with
2^e ≤ q < 2^(e+1). -/
def ilog2q (q : ℚ) : Int :=
  let e0 : Int := (natLog2 q.num.natAbs : Int) - (natLog2 q.den : Int)
  if pow2 e0 ≤ q then e0 else e0 - 1

/-- Floor of a non-negative rational (truncating integer division, exact for
non-negative numerators). -/
def floorPos (q : ℚ) : Int :=
  q.num / (q.den : Int)

/-- Rounds a positive rational to the nearest IEEE-754 binary32 value (24-bit
significand, minimum exponent -149 giving the subnormal range), with ties to
even.  Overflow to infinity is not modelled: magnitudes that round past the
largest finite f32 keep their rounded rational value. -/
def roundPos (m : ℚ) : ℚ :=
  let s : Int := max (ilog2q m - 23) (-149)
  let scaled := m * pow2 (-s)
  let fl := floorPos scaled
  let n := if scaled - mkRat fl 1 < mkRat 1 2 then fl
    else if mkRat 1 2 < scaled - mkRat fl 1 then fl + 1
    else if fl % 2 = 0 then fl else fl + 1
  mkRat n 1 * pow2 s

/-- Rounds a rational to the nearest IEEE-754 binary32 value, ties to even
(neither NaN nor the infinities nor the sign of zero are modelled: the
snippets never produce them on the states of interest). -/
def round (x : ℚ) : ℚ :=
  if x = 0 then 0
  else if x < 0 then -roundPos (-x)
  else roundPos x

/-- IEEE-754 binary32 subtraction: the exact difference rounded to nearest,
ties to even.  This is what the Rust -= on f32 computes. -/
def sub (a b : ℚ) : ℚ :=
  round (a - b)

/-- IEEE-754 binary32 addition, rounded like the subtraction. -/
def add (a b : ℚ) : ℚ :=
  round (a + b)

/-- IEEE-754 binary32 multiplication, rounded like the subtraction. -/
def mul (a b : ℚ) : ℚ :=
  round (a * b)

end F32

namespace Flyweight

/-- Embeds struct OutOfStockError. -/
structure OutOfStockError where
  deriving DecidableEq

/-- Embeds struct CheeseBrand, the flyweight.  The f32 cost and quantity are
carried as rationals; every arithmetic operation on them rounds its result to
binary32 (F32.sub and friends), so stored values behave like f32 values. -/
structure CheeseBrand where
  name : String
  cost : ℚ
  quantity : ℚ
  deriving DecidableEq

/-- Embeds CheeseBrand::new. -/
def CheeseBrand.new (name : String) (cost quantity : ℚ) : CheeseBrand :=
  { name := name, cost := cost, quantity := quantity }

/-- Embeds CheeseBrand::reduce_quantity: out of stock when more than the
stocked quantity is requested, otherwise the f32 -= stores the binary32
rounding of the difference (comparison on finite f32 values is exact, the
subtraction rounds to nearest, ties to even). -/
def CheeseBrand.reduceQuantity (c : CheeseBrand) (quantity : ℚ) :
    Except OutOfStockError CheeseBrand :=
  if quantity > c.quantity then .error {}
  else .ok { c with quantity := F32.sub c.quantity quantity }

/-- Embeds struct Menu: its RefCell of HashMap from names to CheeseBrands is
modelled as a lookup function (HashMap keys are unique). -/
def Menu : Type := String → Option CheeseBrand

/-- Embeds Menu::new. -/
def Menu.new : Menu := fun _ => none

/-- Embeds Menu::add: entry(name).or_insert(CheeseBrand::new ...) followed by
overwriting the entry's cost and quantity; the stored name is kept when the
entry already existed. -/
def Menu.add (m : Menu) (name : String) (cost quantity : ℚ) : Menu :=
  fun k =>
    if k = name then
      let entry := (m name).getD (CheeseBrand.new name cost quantity)
      some { entry with cost := cost, quantity := quantity }
    else m k

/-- Embeds Menu::sell: looks the brand up, reduces its quantity (by f32
subtraction, which rounds) and returns its cost; returns OutOfStockError when
the brand is missing or the reduction fails, leaving the menu unchanged in
that case.  The resulting menu is returned alongside the Result. -/
def Menu.sell (m : Menu) (name : String) (quantity : ℚ) :
    Except OutOfStockError ℚ × Menu :=
  match m name with
  | some ch =>
    match ch.reduceQuantity quantity with
    | .error e => (.error e, m)
    | .ok ch2 => (.ok ch2.cost, fun k => if k = name then some ch2 else m k)
  | none => (.error {}, m)

/-- Embeds struct CheeseShop's extrinsic state (its menu reference is passed
explicitly). -/
structure CheeseShop where
  unitsSold : ℚ
  revenue : ℚ
  deriving DecidableEq

/-- Embeds CheeseShop::new. -/
def CheeseShop.new : CheeseShop :=
  { unitsSold := 0, revenue := 0 }

/-- Embeds CheeseShop::sell: sells via the shared menu and on success adds the
sold units and the revenue (f32 += and *, each rounding to binary32); on
failure the error propagates and the shop is untouched. -/
def CheeseShop.sellStep (menu : Menu) (s : CheeseShop) (name : String) (quantity : ℚ) :
    Except OutOfStockError Unit × Menu × CheeseShop :=
  match Menu.sell menu name quantity with
  | (.error e, m2) => (.error e, m2, s)
  | (.ok cost, m2) =>
    (.ok (), m2, { unitsSold := F32.add s.unitsSold quantity,
                   revenue := F32.add s.revenue (F32.mul cost quantity) })

/-- Embeds tests::test_flyweight: two shops sharing one menu, with all ten
assertions of the test in order. -/
def testB : Bool :=
  let menu0 := Menu.new
  let shop1 := CheeseShop.new
  let shop2 := CheeseShop.new
  let r1 := CheeseShop.sellStep menu0 shop1 ("blue") 10
  let a1 := match r1.1 with
    | .error _ => true
    | .ok _ => false
  let menu1 := Menu.add r1.2.1 ("blue") (2.5 : ℚ) 10
  let r2 := CheeseShop.sellStep menu1 shop2 ("blue") 5
  let a2 := match r2.1 with
    | .ok _ => true
    | .error _ => false
  let menu2 := Menu.add r2.2.1 ("white") (1.25 : ℚ) 20
  let r3 := CheeseShop.sellStep menu2 r2.2.2 ("white") 10
  let a3 := match r3.1 with
    | .ok _ => true
    | .error _ => false
  let shop2f := r3.2.2
  let a4 := decide (shop2f.unitsSold = 15)
  let a5 := decide (shop2f.revenue = 25)
  let r4 := CheeseShop.sellStep r3.2.1 r1.2.2 ("blue") 10
  let a6 := match r4.1 with
    | .error _ => true
    | .ok _ => false
  let r5 := CheeseShop.sellStep r4.2.1 r4.2.2 ("white") 10
  let a7 := match r5.1 with
    | .ok _ => true
    | .error _ => false
  let r6 := CheeseShop.sellStep r5.2.1 r5.2.2 ("white") 1
  let a8 := match r6.1 with
    | .error _ => true
    | .ok _ => false
  let shop1f := r6.2.2
  let a9 := decide (shop1f.unitsSold = 10)
  let a10 := decide (shop1f.revenue = (12.5 : ℚ))
  a1 && a2 && a3 && a4 && a5 && a6 && a7 && a8 && a9 && a10

end Flyweight

namespace Mediator

/-- Embeds struct ParticipantMediator together with the press counters of the
buttons it references: each button's Cell of u8 lives behind the mediator's
reference to it, so a registered button is modelled as Option of its count. -/
structure PM where
  view : Option Nat
  search : Option Nat
  book : Option Nat
  display : Option Unit
  deriving DecidableEq

/-- Embeds ParticipantMediator::new. -/
def PM.new : PM :=
  { view := none, search := none, book := none, display := none }

/-- Embeds Mediator::register_view with a fresh ButtonView (count 0). -/
def PM.registerView (m : PM) : PM := { m with view := some 0 }

/-- Embeds Mediator::register_search with a fresh ButtonSearch (count 0). -/
def PM.registerSearch (m : PM) : PM := { m with search := some 0 }

/-- Embeds Mediator::register_book with a fresh ButtonBook (count 0). -/
def PM.registerBook (m : PM) : PM := { m with book := some 0 }

/-- Embeds Mediator::register_display. -/
def PM.registerDisplay (m : PM) : PM := { m with display := some () }

/-- Embeds Mediator::view for ParticipantMediator: expect panics (modelled as
errors) when the view button or the display is missing; otherwise the button
count is incremented (u8, modulo 2^8) and the display prints "viewing". -/
def PM.viewOp (m : PM) : Except String (String × PM) :=
  match m.view with
  | none => .error "No view button registered with mediator"
  | some count =>
    let pressed := { m with view := some ((count + 1) % 256) }
    match pressed.display with
    | none => .error "No display registered with mediator"
    | some _ => .ok ("viewing", pressed)

/-- Embeds Mediator::search for ParticipantMediator. -/
def PM.searchOp (m : PM) : Except String (String × PM) :=
  match m.search with
  | none => .error "No search button registered with mediator"
  | some count =>
    let pressed := { m with search := some ((count + 1) % 256) }
    match pressed.display with
    | none => .error "No display registered with mediator"
    | some _ => .ok ("searching", pressed)

/-- Embeds Mediator::book for ParticipantMediator. -/
def PM.bookOp (m : PM) : Except String (String × PM) :=
  match m.book with
  | none => .error "No book button registered with mediator"
  | some count =>
    let pressed := { m with book := some ((count + 1) % 256) }
    match pressed.display with
    | none => .error "No display registered with mediator"
    | some _ => .ok ("booking", pressed)

/-- Embeds Mediator::get_counts: reads the search, view and book counters (in
that order, as the source does) and returns (view, search, book). -/
def PM.getCounts (m : PM) : Except String (Nat × Nat × Nat) :=
  match m.search with
  | none => .error "No search button registered with mediator"
  | some cs =>
    match m.view with
    | none => .error "No view button registered with mediator"
    | some cv =>
      match m.book with
      | none => .error "No book button registered with mediator"
      | some cb => .ok (cv, cs, cb)

/-- Embeds tests::test_mediator_panic and tests::test_mediator: the first
expects a panic on view() without registration; the second registers the four
colleagues and checks the four interaction strings and the final counts. -/
def testB : Bool :=
  (match PM.new.viewOp with
    | .error _ => true
    | .ok _ => false)
  && (let mediator := PM.new.registerBook.registerView.registerSearch.registerDisplay
      match mediator.viewOp with
      | .ok (r1, m1) => decide (r1 = "viewing")
        && (match m1.bookOp with
          | .ok (r2, m2) => decide (r2 = "booking")
            && (match m2.searchOp with
              | .ok (r3, m3) => decide (r3 = "searching")
                && (match m3.viewOp with
                  | .ok (r4, m4) => decide (r4 = "viewing")
                    && (match m4.getCounts with
                      | .ok counts => decide (counts = (2, 1, 1))
                      | .error _ => false)
                  | .error _ => false)
              | .error _ => false)
          | .error _ => false)
      | .error _ => false)

end Mediator

namespace SingletonPattern

/-- Models the process-global state the singleton example lives in: the heap
cells ever allocated for SingletonReader instances (each cell holds the u8
behind the instance's Arc of Mutex) and the static SINGLETON pointer set by
Once::call_once. -/
structure SWorld where
  heap : List Nat
  singletonPtr : Option Nat
  deriving DecidableEq

/-- State of the process before anything has run: no allocation, null
SINGLETON pointer. -/
def SWorld.init : SWorld :=
  { heap := [], singletonPtr := none }

/-- Embeds get_instance: the first call allocates the single SingletonReader
(mutex content 0) and stores its address in SINGLETON; every call returns a
clone of *SINGLETON, i.e. a handle aliasing the same allocation. -/
def getInstance (w : SWorld) : SWorld × Nat :=
  match w.singletonPtr with
  | some p => (w, p)
  | none =>
    ({ heap := w.heap ++ [0], singletonPtr := some w.heap.length }, w.heap.length)

/-- Writes a u8 value through the inner mutex of a handle (values are reduced
modulo 2^8). -/
def writeThrough (w : SWorld) (h : Nat) (v : Nat) : SWorld :=
  { w with heap := w.heap.set h (v % 256) }

/-- Reads the u8 value behind the inner mutex of a handle. -/
def readThrough (w : SWorld) (h : Nat) : Option Nat :=
  w.heap[h]?

/-- Boolean well-formedness of a world: the SINGLETON pointer, when set,
points into the heap. -/
def sInvB (w : SWorld) : Bool :=
  match w.singletonPtr with
  | some p => decide (p < w.heap.length)
  | none => true

/-- Well-formedness of a world (holds for the initial world and is preserved
by every operation). -/
def SInv (w : SWorld) : Prop :=
  sInvB w = true

/-- Embeds tests::test_singleton: three get_instance calls, writing 0 through
the first handle, 1 through the second, and asserting that the third reads 1. -/
def testB (w : SWorld) : Bool × SWorld :=
  let r1 := getInstance w
  let w1 := writeThrough r1.1 r1.2 0
  let r2 := getInstance w1
  let w2 := writeThrough r2.1 r2.2 1
  let r3 := getInstance w2
  (decide (readThrough r3.1 r3.2 = some 1), r3.1)

end SingletonPattern

namespace StatePattern

/-- Trait objects of trait State: Draft, PendingReview or Published. -/
inductive PState where
  | draft
  | pendingReview
  | published
  deriving DecidableEq

/-- Embeds State::request_review of each concrete state. -/
def PState.requestReview : PState → PState
  | .draft => .pendingReview
  | .pendingReview => .pendingReview
  | .published => .published

/-- Embeds State::approve of each concrete state. -/
def PState.approve : PState → PState
  | .draft => .draft
  | .pendingReview => .published
  | .published => .published

/-- Embeds struct Post (its state Option is always Some between calls, so the
state is carried directly). -/
structure Post where
  state : PState
  content : String
  deriving DecidableEq

/-- Embeds State::content: the default implementation returns the empty
string; Published overrides it to return the post's content. -/
def PState.contentOf (s : PState) (post : Post) : String :=
  match s with
  | .published => post.content
  | _ => ""

/-- Embeds Post::new. -/
def Post.new : Post :=
  { state := .draft, content := "" }

/-- Embeds Post::add_text (push_str). -/
def Post.addText (p : Post) (text : String) : Post :=
  { p with content := p.content ++ text }

/-- Embeds Post::content, delegating to the current state. -/
def Post.contentView (p : Post) : String :=
  p.state.contentOf p

/-- Embeds Post::request_review, delegating to the current state. -/
def Post.requestReview (p : Post) : Post :=
  { p with state := p.state.requestReview }

/-- Embeds Post::approve, delegating to the current state. -/
def Post.approve (p : Post) : Post :=
  { p with state := p.state.approve }

/-- Operations a client can perform on a Post. -/
inductive Op where
  | addText (text : String)
  | requestReview
  | approve
  deriving DecidableEq, BEq

/-- Applies one operation to a post. -/
def Post.step (p : Post) (op : Op) : Post :=
  match op with
  | .addText t => p.addText t
  | .requestReview => p.requestReview
  | .approve => p.approve

/-- Runs a sequence of operations on a fresh post. -/
def runOps (ops : List Op) : Post :=
  ops.foldl Post.step Post.new

/-- Effect of one operation on the state component alone. -/
def stepState (s : PState) (op : Op) : PState :=
  match op with
  | .addText _ => s
  | .requestReview => s.requestReview
  | .approve => s.approve

/-- Holds when some request_review operation is followed, not necessarily
immediately, by an approve operation. -/
def hasRRThenApprove : List Op → Bool
  | [] => false
  | Op.requestReview :: rest => rest.any (fun o => o == Op.approve) || hasRRThenApprove rest
  | _ :: rest => hasRRThenApprove rest

/-- Concatenation of all text added by a sequence of operations. -/
def concatTexts (ops : List Op) : String :=
  ops.foldl (fun acc op => match op with
    | Op.addText t => acc ++ t
    | _ => acc) ""

/-- Embeds tests::test_state. -/
def testB : Bool :=
  let post := Post.new.addText ("I ate a salad for lunch today")
  let a1 := decide (post.contentView = "")
  let post2 := post.requestReview
  let a2 := decide (post2.contentView = "")
  let post3 := post2.approve
  let a3 := decide (post3.contentView = "I ate a salad for lunch today")
  a1 && a2 && a3

end StatePattern

/-- Metadata of one pattern source file of the repository: its file name, its
line count (newline-terminated lines, as counted by wc -l), the number of
functions marked as tests in its cfg(test) module, and the design pattern the
file demonstrates. -/
structure SourceFile where
  name : String
  lineCount : Nat
  testCount : Nat
  patternName : String
  deriving DecidableEq

/-- The twenty pattern source files of the repository (main.rs, which only
declares the modules, is not a pattern file). -/
def patternFiles : List SourceFile :=
  [⟨"abstract_factory.rs", 204, 1, "Abstract Factory"⟩,
   ⟨"adapter.rs", 86, 1, "Adapter"⟩,
   ⟨"bridge.rs", 114, 1, "Bridge"⟩,
   ⟨"builder.rs", 162, 1, "Builder"⟩,
   ⟨"chain_of_responsibility.rs", 141, 1, "Chain of Responsibility"⟩,
   ⟨"command.rs", 154, 2, "Command"⟩,
   ⟨"composite.rs", 137, 1, "Composite"⟩,
   ⟨"decorator.rs", 96, 1, "Decorator"⟩,
   ⟨"facade.rs", 101, 1, "Facade"⟩,
   ⟨"factory_method.rs", 101, 1, "Factory Method"⟩,
   ⟨"flyweight.rs", 192, 1, "Flyweight"⟩,
   ⟨"iterator.rs", 97, 1, "Iterator"⟩,
   ⟨"mediator.rs", 194, 2, "Mediator"⟩,
   ⟨"observer.rs", 141, 1, "Observer"⟩,
   ⟨"prototype.rs", 44, 1, "Prototype"⟩,
   ⟨"proxy.rs", 88, 1, "Proxy"⟩,
   ⟨"singleton.rs", 100, 1, "Singleton"⟩,
   ⟨"state.rs", 144, 1, "State"⟩,
   ⟨"strategy.rs", 106, 1, "Strategy"⟩,
   ⟨"template_method.rs", 118, 1, "Template Method"⟩]

/-- The nineteen design patterns enumerated by the specification. -/
def specPatterns : List String :=
  ["Abstract Factory", "Builder", "Bridge", "Chain of Responsibility", "Command",
   "Composite", "Decorator", "Facade", "Factory Method", "Flyweight", "Iterator",
   "Mediator", "Observer", "Prototype", "Proxy", "Singleton", "State", "Strategy",
   "Template Method"]

/-- Runs the embedded unit tests of one pattern file: the result Bool is true
exactly when every assertion of the file's cfg(test) module holds.  The tests
run against the process-global state, which only the singleton example ever
touches; every other file's tests build all their objects locally. -/
def runTest (name : String) (w : SingletonPattern.SWorld) : Bool × SingletonPattern.SWorld :=
  match name with
  | "abstract_factory.rs" => (AbstractFactory.testB, w)
  | "adapter.rs" => (Adapter.testB, w)
  | "bridge.rs" => (Bridge.testB, w)
  | "builder.rs" => (Builder.testB, w)
  | "chain_of_responsibility.rs" => (Chain.testB, w)
  | "command.rs" => (Command.testB, w)
  | "composite.rs" => (Composite.testB, w)
  | "decorator.rs" => (Decorator.testB, w)
  | "facade.rs" => (Facade.testB, w)
  | "factory_method.rs" => (FactoryMethod.testB, w)
  | "flyweight.rs" => (Flyweight.testB, w)
  | "iterator.rs" => (IteratorPattern.testB, w)
  | "mediator.rs" => (Mediator.testB, w)
  | "observer.rs" => (Observer.testB, w)
  | "prototype.rs" => (Prototype.testB, w)
  | "proxy.rs" => (Proxy.testB, w)
  | "singleton.rs" => SingletonPattern.testB w
  | "state.rs" => (StatePattern.testB, w)
  | "strategy.rs" => (Strategy.testB, w)
  | "template_method.rs" => (TemplateMethod.testB, w)
  | _ => (true, w)

/-- Concrete menu used to exercise Menu.sell: a single brand of blue cheese
(cost 5/2, quantity 10). -/
def sampleMenu : Flyweight.Menu :=
  fun k => if k = "blue" then some (Flyweight.CheeseBrand.new ("blue") (mkRat 5 2) 10) else none

/-- Concrete well-formed world in which the singleton is already initialised
(one heap cell holding 5, pointed to by SINGLETON). -/
def sampleWorld : SingletonPattern.SWorld :=
  { heap := [5], singletonPtr := some 0 }

/-- Concrete menu holding a brand whose stocked quantity is 2^25, the point
where f32 subtraction of 1 rounds the difference back up. -/
def bigStockMenu : Flyweight.Menu :=
  fun k =>
    if k = "white" then some (Flyweight.CheeseBrand.new ("white") 1 (mkRat 33554432 1))
    else none

section MainTheorems

attribute [local semireducible] Rat.add Rat.sub Rat.mul Rat.inv Rat.ofScientific

/-- Helper: an approval message always contains a dollar sign, so it can never
equal the rejection message. -/
theorem approveMsg_ne_tooHigh (c : String) (n : Nat) (p : String) :
    Chain.approveMsg c n p ≠ Chain.tooHigh := by
  intro h
  have hd : '$' ∈ (Chain.approveMsg c n p).data := by
    have hm : '$' ∈ (" will approve $" : String).data := by decide
    simp only [Chain.approveMsg, String.data_append, List.mem_append]
    tauto
  rw [h] at hd
  revert hd
  decide

/-- C3: process_request on a chain returns the approval message of the first
handler, in chain order, whose allowable is strictly greater than the
request's amount, and returns the rejection message exactly when no handler
in the chain qualifies. -/
theorem chain_first_approver_spec :
    ∀ (e : Chain.Employee) (req : Chain.PurchaseRequest),
      (∀ p : String × Nat,
        e.handlers.find? (fun q => decide (req.amount < q.2)) = some p →
          e.processRequest req = Chain.approveMsg p.1 req.amount req.purpose)
      ∧ (e.processRequest req = Chain.tooHigh
        ↔ e.handlers.find? (fun q => decide (req.amount < q.2)) = none)
  | .mk c a none, req => by
    by_cases h : req.amount < a
    · constructor
      · intro p hp
        simp only [Chain.Employee.handlers] at hp
        rw [List.find?_cons_of_pos _ (by simpa using h)] at hp
        simp only [Option.some.injEq] at hp
        subst hp
        simp [Chain.Employee.processRequest, h]
      · constructor
        · intro habs
          simp only [Chain.Employee.processRequest, if_pos h] at habs
          exact absurd habs (approveMsg_ne_tooHigh c req.amount req.purpose)
        · intro habs
          simp only [Chain.Employee.handlers] at habs
          rw [List.find?_cons_of_pos _ (by simpa using h)] at habs
          exact absurd habs (by simp)
    · constructor
      · intro p hp
        simp only [Chain.Employee.handlers] at hp
        rw [List.find?_cons_of_neg _ (by simpa using h)] at hp
        simp at hp
      · simp [Chain.Employee.processRequest, if_neg h, Chain.Employee.handlers,
          List.find?_cons_of_neg, h]
  | .mk c a (some s), req => by
    have ih := chain_first_approver_spec s req
    by_cases h : req.amount < a
    · constructor
      · intro p hp
        simp only [Chain.Employee.handlers] at hp
        rw [List.find?_cons_of_pos _ (by simpa using h)] at hp
        simp only [Option.some.injEq] at hp
        subst hp
        simp [Chain.Employee.processRequest, h]
      · constructor
        · intro habs
          simp only [Chain.Employee.processRequest, if_pos h] at habs
          exact absurd habs (approveMsg_ne_tooHigh c req.amount req.purpose)
        · intro habs
          simp only [Chain.Employee.handlers] at habs
          rw [List.find?_cons_of_pos _ (by simpa using h)] at habs
          exact absurd habs (by simp)
    · constructor
      · intro p hp
        simp only [Chain.Employee.handlers] at hp
        rw [List.find?_cons_of_neg _ (by simpa using h)] at hp
        have := ih.1 p hp
        simpa [Chain.Employee.processRequest, if_neg h] using this
      · simp only [Chain.Employee.processRequest, if_neg h, Chain.Employee.handlers]
        rw [List.find?_cons_of_neg _ (by simpa using h)]
        exact ih.2

/-- Witness for C3: a one-handler chain (manager, allowable 5000) approves a
500-dollar request for desk repair. -/
theorem chain_first_approver_spec_witness :
    (Chain.Employee.new ("manager") 5000).handlers.find?
        (fun q => decide ((Chain.PurchaseRequest.new 500 ("desk repair")).amount < q.2))
      = some (("manager"), 5000)
    ∧ (Chain.Employee.new ("manager") 5000).processRequest
        (Chain.PurchaseRequest.new 500 ("desk repair"))
      = Chain.approveMsg ("manager") (Chain.PurchaseRequest.new 500 ("desk repair")).amount
          (Chain.PurchaseRequest.new 500 ("desk repair")).purpose :=
  ⟨by decide,
   (chain_first_approver_spec (Chain.Employee.new ("manager") 5000)
      (Chain.PurchaseRequest.new 500 ("desk repair"))).1 (("manager"), 5000) (by decide)⟩

/-- C4 counterexample: with 2^25 units of white cheese stocked, selling one
unit succeeds, yet the stocked quantity is left at 2^25 by the f32 rounding of
the subtraction, so the brand's quantity is not reduced by exactly the
requested quantity. -/
theorem menu_sell_exact_cex :
    bigStockMenu ("white")
      = some (Flyweight.CheeseBrand.new ("white") 1 (mkRat 33554432 1))
    ∧ (Flyweight.Menu.sell bigStockMenu ("white") 1).1 = .ok 1
    ∧ (Flyweight.Menu.sell bigStockMenu ("white") 1).2 ("white")
      = some (Flyweight.CheeseBrand.new ("white") 1 (mkRat 33554432 1))
    ∧ ¬ (Flyweight.Menu.sell bigStockMenu ("white") 1).2 ("white")
      = some { Flyweight.CheeseBrand.new ("white") 1 (mkRat 33554432 1) with
          quantity := mkRat 33554432 1 - 1 } := by
  refine ⟨rfl, rfl, rfl, ?_⟩
  decide

/-- C4 (amended): Menu::sell fails with OutOfStockError exactly when the brand
is absent or more than its stocked quantity is requested; on failure the menu
is unchanged; on success it returns the brand's cost and sets that brand's
stocked quantity to the binary32 rounding of the difference of the stocked and
requested quantities (equal to the exact difference whenever that difference
is representable in f32, but not in general), leaving every other brand
unchanged. -/
theorem menu_sell_spec (m : Flyweight.Menu) (name : String) (q : ℚ) :
    ((∃ e, (Flyweight.Menu.sell m name q).1 = .error e) ↔
      m name = none ∨ ∃ ch, m name = some ch ∧ q > ch.quantity)
    ∧ ((∃ e, (Flyweight.Menu.sell m name q).1 = .error e) →
      (Flyweight.Menu.sell m name q).2 = m)
    ∧ (∀ ch, m name = some ch → ¬ q > ch.quantity →
      (Flyweight.Menu.sell m name q).1 = .ok ch.cost
      ∧ (Flyweight.Menu.sell m name q).2 name
        = some { ch with quantity := F32.sub ch.quantity q }
      ∧ ∀ k, k ≠ name → (Flyweight.Menu.sell m name q).2 k = m k) := by
  cases hm : m name with
  | none =>
    refine ⟨?_, ?_, ?_⟩
    · simp only [Flyweight.Menu.sell, hm]
      exact iff_of_true ⟨{}, trivial⟩ (Or.inl trivial)
    · intro _
      simp [Flyweight.Menu.sell, hm]
    · intro ch hch
      simp at hch
  | some ch =>
    by_cases hq : q > ch.quantity
    · refine ⟨?_, ?_, ?_⟩
      · simp only [Flyweight.Menu.sell, hm, Flyweight.CheeseBrand.reduceQuantity, if_pos hq]
        exact iff_of_true ⟨{}, trivial⟩ (Or.inr ⟨ch, rfl, hq⟩)
      · intro _
        simp [Flyweight.Menu.sell, hm, Flyweight.CheeseBrand.reduceQuantity, hq]
      · intro ch2 hch2 hq2
        injection hch2 with h3
        subst h3
        exact absurd hq hq2
    · refine ⟨?_, ?_, ?_⟩
      · simp only [Flyweight.Menu.sell, hm, Flyweight.CheeseBrand.reduceQuantity, if_neg hq]
        constructor
        · rintro ⟨e, he⟩
          exact absurd he (by simp)
        · rintro (h1 | ⟨ch2, hch2, hq2⟩)
          · exact absurd h1 (by simp)
          · injection hch2 with h3
            subst h3
            exact absurd hq2 hq
      · intro hex
        exfalso
        obtain ⟨e, he⟩ := hex
        simp [Flyweight.Menu.sell, hm, Flyweight.CheeseBrand.reduceQuantity, hq] at he
      · intro ch2 hch2 hq2
        injection hch2 with h3
        subst h3
        refine ⟨?_, ?_, ?_⟩
        · simp [Flyweight.Menu.sell, hm, Flyweight.CheeseBrand.reduceQuantity, hq]
        · simp [Flyweight.Menu.sell, hm, Flyweight.CheeseBrand.reduceQuantity, hq]
        · intro k hk
          simp [Flyweight.Menu.sell, hm, Flyweight.CheeseBrand.reduceQuantity, hq, hk]

/-- Witness for C4: selling 3 units of the stocked blue cheese succeeds and
returns its cost. -/
theorem menu_sell_spec_witness :
    sampleMenu ("blue") = some (Flyweight.CheeseBrand.new ("blue") (mkRat 5 2) 10)
    ∧ ¬ (3 : ℚ) > (Flyweight.CheeseBrand.new ("blue") (mkRat 5 2) 10).quantity
    ∧ (Flyweight.Menu.sell sampleMenu ("blue") 3).1
      = .ok (Flyweight.CheeseBrand.new ("blue") (mkRat 5 2) 10).cost :=
  ⟨by decide, by decide,
   ((menu_sell_spec sampleMenu ("blue") 3).2.2
      (Flyweight.CheeseBrand.new ("blue") (mkRat 5 2) 10) (by decide) (by decide)).1⟩

namespace StatePattern

/-- Helper: running operations on a post folds the state component through
stepState. -/
theorem foldl_step_state (ops : List Op) (p : Post) :
    (ops.foldl Post.step p).state = ops.foldl stepState p.state := by
  induction ops generalizing p with
  | nil => rfl
  | cons op rest ih =>
    cases op <;>
      simp [List.foldl_cons, Post.step, stepState, ih, Post.addText, Post.requestReview,
        Post.approve]

/-- Helper: the content field accumulates exactly the added texts, whatever
the states traversed. -/
theorem foldl_step_content (ops : List Op) (p : Post) :
    (ops.foldl Post.step p).content
      = ops.foldl (fun acc op => match op with
          | Op.addText t => acc ++ t
          | _ => acc) p.content := by
  induction ops generalizing p with
  | nil => rfl
  | cons op rest ih =>
    cases op <;>
      simp [List.foldl_cons, Post.step, ih, Post.addText, Post.requestReview, Post.approve]

/-- Helper: Published is absorbing for every operation. -/
theorem stepState_pub (ops : List Op) : ops.foldl stepState .published = .published := by
  induction ops with
  | nil => rfl
  | cons op rest ih => cases op <;> simpa [stepState, PState.requestReview, PState.approve] using ih

theorem op_beq_addText (t : String) : (Op.addText t == Op.approve) = false := rfl

theorem op_beq_rr : (Op.requestReview == Op.approve) = false := rfl

theorem op_beq_approve : (Op.approve == Op.approve) = true := rfl

/-- Helper: from PendingReview the post ends Published exactly when some
approve occurs. -/
theorem stepState_pending (ops : List Op) :
    ops.foldl stepState .pendingReview = .published
      ↔ ops.any (fun o => o == Op.approve) = true := by
  induction ops with
  | nil => simp
  | cons op rest ih =>
    cases op with
    | addText t => simpa [stepState, op_beq_addText] using ih
    | requestReview => simpa [stepState, PState.requestReview, op_beq_rr] using ih
    | approve =>
      simp [stepState, PState.approve, stepState_pub]
      exact Or.inl rfl

/-- Helper: a request_review followed by an approve implies some approve
occurs. -/
theorem hasRRA_imp_any :
    ∀ l : List Op, hasRRThenApprove l = true → l.any (fun o => o == Op.approve) = true := by
  intro l
  induction l with
  | nil => simp [hasRRThenApprove]
  | cons op rest ih =>
    cases op with
    | addText t =>
      intro h
      simp only [hasRRThenApprove] at h
      simp [List.any_cons, ih h]
    | requestReview =>
      intro h
      simp only [hasRRThenApprove, Bool.or_eq_true] at h
      rcases h with h | h
      · simp [List.any_cons, h]
      · simp [List.any_cons, ih h]
    | approve =>
      intro _
      simp [List.any_cons]
      exact Or.inl rfl

/-- Helper: from Draft the post ends Published exactly when some
request_review is later followed by an approve. -/
theorem stepState_draft (ops : List Op) :
    ops.foldl stepState .draft = .published ↔ hasRRThenApprove ops = true := by
  induction ops with
  | nil => simp [hasRRThenApprove]
  | cons op rest ih =>
    cases op with
    | addText t => simpa [stepState, hasRRThenApprove] using ih
    | approve => simpa [stepState, PState.approve, hasRRThenApprove] using ih
    | requestReview =>
      simp only [List.foldl_cons, stepState, PState.requestReview, hasRRThenApprove,
        Bool.or_eq_true]
      rw [stepState_pending rest]
      constructor
      · exact fun h => Or.inl h
      · rintro (h | h)
        · exact h
        · exact hasRRA_imp_any rest h

end StatePattern

/-- C5: starting from Post::new, content() is empty unless some request_review
is later followed by an approve; once that has happened the post is Published
and content() is exactly the concatenation of all text added; the Published
state survives any further operations; and approve applied in Draft leaves
Draft. -/
theorem post_state_lifecycle (ops : List StatePattern.Op) :
    ((StatePattern.runOps ops).state = StatePattern.PState.published
      ↔ StatePattern.hasRRThenApprove ops = true)
    ∧ (StatePattern.runOps ops).contentView
      = (if StatePattern.hasRRThenApprove ops then StatePattern.concatTexts ops else "")
    ∧ (StatePattern.hasRRThenApprove ops = true →
        ∀ more : List StatePattern.Op,
          (StatePattern.runOps (ops ++ more)).state = StatePattern.PState.published)
    ∧ StatePattern.PState.approve StatePattern.PState.draft = StatePattern.PState.draft := by
  have hstate : (StatePattern.runOps ops).state
      = ops.foldl StatePattern.stepState .draft :=
    StatePattern.foldl_step_state ops StatePattern.Post.new
  have hcontent : (StatePattern.runOps ops).content = StatePattern.concatTexts ops :=
    StatePattern.foldl_step_content ops StatePattern.Post.new
  refine ⟨?_, ?_, ?_, rfl⟩
  · rw [hstate]
    exact StatePattern.stepState_draft ops
  · by_cases h : StatePattern.hasRRThenApprove ops = true
    · have hpub : (StatePattern.runOps ops).state = .published := by
        rw [hstate]
        exact (StatePattern.stepState_draft ops).mpr h
      simp [StatePattern.Post.contentView, hpub, StatePattern.PState.contentOf, h, hcontent]
    · have hnp : (StatePattern.runOps ops).state ≠ .published := by
        rw [hstate]
        intro hc
        exact h ((StatePattern.stepState_draft ops).mp hc)
      rw [if_neg h]
      cases hs : (StatePattern.runOps ops).state with
      | draft => simp [StatePattern.Post.contentView, hs, StatePattern.PState.contentOf]
      | pendingReview => simp [StatePattern.Post.contentView, hs, StatePattern.PState.contentOf]
      | published => exact absurd hs hnp
  · intro h more
    have hsa : (StatePattern.runOps (ops ++ more)).state
        = (ops ++ more).foldl StatePattern.stepState .draft :=
      StatePattern.foldl_step_state (ops ++ more) StatePattern.Post.new
    rw [hsa, List.foldl_append]
    have hpub : ops.foldl StatePattern.stepState .draft = .published :=
      (StatePattern.stepState_draft ops).mpr h
    rw [hpub]
    exact StatePattern.stepState_pub more

/-- Witness for C5: after request_review then approve the post is Published,
and it stays Published after one more approve. -/
theorem post_state_lifecycle_witness :
    StatePattern.hasRRThenApprove
        [StatePattern.Op.requestReview, StatePattern.Op.approve] = true
    ∧ (StatePattern.runOps ([StatePattern.Op.requestReview, StatePattern.Op.approve]
        ++ [StatePattern.Op.approve])).state = StatePattern.PState.published :=
  ⟨by decide,
   (post_state_lifecycle [StatePattern.Op.requestReview, StatePattern.Op.approve]).2.2.1
     (by decide) [StatePattern.Op.approve]⟩

namespace SingletonPattern

/-- Helper: in a well-formed world a set SINGLETON pointer is within the
heap. -/
theorem sinv_some {w : SWorld} {p : Nat} (hw : SInv w) (hp : w.singletonPtr = some p) :
    p < w.heap.length := by
  simp only [SInv, sInvB, hp, decide_eq_true_eq] at hw
  exact hw

end SingletonPattern

/-- C2: every get_instance call returns a handle to one and the same
mutex-guarded instance: a second call returns the same handle and allocates
nothing, the handle survives writes, and a value written through the inner
mutex of one call's handle is read back through the handle returned by a
later call. -/
theorem singleton_single_instance (w : SingletonPattern.SWorld)
    (hw : SingletonPattern.SInv w) (v : Nat) :
    (SingletonPattern.getInstance (SingletonPattern.getInstance w).1).2
        = (SingletonPattern.getInstance w).2
    ∧ (SingletonPattern.getInstance (SingletonPattern.getInstance w).1).1
        = (SingletonPattern.getInstance w).1
    ∧ (∀ h u, (SingletonPattern.getInstance
        (SingletonPattern.writeThrough (SingletonPattern.getInstance w).1 h u)).2
          = (SingletonPattern.getInstance w).2)
    ∧ SingletonPattern.readThrough
        (SingletonPattern.writeThrough (SingletonPattern.getInstance w).1
          (SingletonPattern.getInstance w).2 v)
        (SingletonPattern.getInstance
          (SingletonPattern.writeThrough (SingletonPattern.getInstance w).1
            (SingletonPattern.getInstance w).2 v)).2
      = some (v % 256) := by
  obtain ⟨heap, ptr⟩ := w
  cases ptr with
  | none =>
    refine ⟨rfl, rfl, fun h u => rfl, ?_⟩
    simp only [SingletonPattern.getInstance, SingletonPattern.writeThrough,
      SingletonPattern.readThrough]
    rw [List.getElem?_set_self]
    simp
  | some p =>
    have hp : p < heap.length := SingletonPattern.sinv_some hw rfl
    refine ⟨rfl, rfl, fun h u => rfl, ?_⟩
    simp only [SingletonPattern.getInstance, SingletonPattern.writeThrough,
      SingletonPattern.readThrough]
    rw [List.getElem?_set_self hp]

/-- Witness for C2: in the initial world, writing 7 through the first handle
is read back through a later call's handle. -/
theorem singleton_single_instance_witness :
    SingletonPattern.SInv SingletonPattern.SWorld.init
    ∧ SingletonPattern.readThrough
        (SingletonPattern.writeThrough
          (SingletonPattern.getInstance SingletonPattern.SWorld.init).1
          (SingletonPattern.getInstance SingletonPattern.SWorld.init).2 7)
        (SingletonPattern.getInstance
          (SingletonPattern.writeThrough
            (SingletonPattern.getInstance SingletonPattern.SWorld.init).1
            (SingletonPattern.getInstance SingletonPattern.SWorld.init).2 7)).2
      = some (7 % 256) :=
  ⟨by rfl,
   (singleton_single_instance SingletonPattern.SWorld.init (by rfl) 7).2.2.2⟩

namespace SingletonPattern

/-- Helper: the singleton unit test passes from every well-formed world. -/
theorem testB_result {w : SWorld} (hw : SInv w) : (testB w).1 = true := by
  obtain ⟨heap, ptr⟩ := w
  cases ptr with
  | none =>
    simp only [testB, getInstance, writeThrough, readThrough, decide_eq_true_eq]
    rw [List.getElem?_set_self]
    simp
  | some p =>
    have hp : p < heap.length := sinv_some hw rfl
    simp only [testB, getInstance, writeThrough, readThrough, decide_eq_true_eq]
    rw [List.getElem?_set_self]
    simpa using hp

/-- Helper: the singleton unit test preserves world well-formedness. -/
theorem testB_inv {w : SWorld} (hw : SInv w) : SInv (testB w).2 := by
  obtain ⟨heap, ptr⟩ := w
  cases ptr with
  | none =>
    simp [testB, getInstance, writeThrough, SInv, sInvB]
  | some p =>
    have hp : p < heap.length := sinv_some hw rfl
    simp [testB, getInstance, writeThrough, SInv, sInvB, hp]

end SingletonPattern

/-- Helper: the result of a pattern file's tests does not depend on the
well-formed global state they start from. -/
theorem runTest_fst_congr (name : String) (w w2 : SingletonPattern.SWorld)
    (hw : SingletonPattern.SInv w) (hw2 : SingletonPattern.SInv w2) :
    (runTest name w).1 = (runTest name w2).1 := by
  unfold runTest
  split <;> first
    | rfl
    | rw [SingletonPattern.testB_result hw, SingletonPattern.testB_result hw2]

/-- Helper: running any pattern file's tests preserves well-formedness of the
global state. -/
theorem runTest_inv (name : String) (w : SingletonPattern.SWorld)
    (hw : SingletonPattern.SInv w) : SingletonPattern.SInv (runTest name w).2 := by
  unfold runTest
  split <;> first
    | exact hw
    | exact SingletonPattern.testB_inv hw

/-- C9: the pattern demos are mutually independent: a module's test result is
the same from any well-formed global state, in particular it is unchanged by
first executing any other module's test (the only shared state is the
singleton's static, which no other module touches). -/
theorem pattern_modules_independent (name other : String)
    (w w2 : SingletonPattern.SWorld)
    (hw : SingletonPattern.SInv w) (hw2 : SingletonPattern.SInv w2) :
    (runTest name w).1 = (runTest name w2).1
    ∧ (runTest name (runTest other w).2).1 = (runTest name w).1 :=
  ⟨runTest_fst_congr name w w2 hw hw2,
   runTest_fst_congr name (runTest other w).2 w (runTest_inv other w hw) hw⟩

/-- Witness for C9: the singleton test gives the same verdict from the fresh
world and from an already initialised world, and running the state test first
changes nothing. -/
theorem pattern_modules_independent_witness :
    SingletonPattern.SInv SingletonPattern.SWorld.init
    ∧ SingletonPattern.SInv sampleWorld
    ∧ (runTest ("singleton.rs") SingletonPattern.SWorld.init).1
      = (runTest ("singleton.rs") sampleWorld).1
    ∧ (runTest ("singleton.rs") (runTest ("state.rs") SingletonPattern.SWorld.init).2).1
      = (runTest ("singleton.rs") SingletonPattern.SWorld.init).1 :=
  ⟨by rfl, by rfl,
   (pattern_modules_independent ("singleton.rs") ("state.rs") SingletonPattern.SWorld.init
      sampleWorld (by rfl) (by rfl)).1,
   (pattern_modules_independent ("singleton.rs") ("state.rs") SingletonPattern.SWorld.init
      sampleWorld (by rfl) (by rfl)).2⟩

/-- C1: for every pattern source file in the repository, the unit tests it
contains pass: every assertion of its cfg(test) module holds when its test
functions run (from the fresh process state). -/
theorem all_pattern_tests_pass :
    ∀ f ∈ patternFiles, (runTest f.name SingletonPattern.SWorld.init).1 = true := by
  decide

/-- Witness for C1: the state pattern file is in the repository and its test
passes. -/
theorem all_pattern_tests_pass_witness :
    SourceFile.mk ("state.rs") 144 1 ("State") ∈ patternFiles
    ∧ (runTest (SourceFile.mk ("state.rs") 144 1 ("State")).name
        SingletonPattern.SWorld.init).1 = true :=
  ⟨by decide, all_pattern_tests_pass (SourceFile.mk ("state.rs") 144 1 ("State")) (by decide)⟩

/-- C6 counterexample: command.rs is a pattern source file of the repository
and contains two unit tests, not exactly one. -/
theorem file_test_counts_cex :
    SourceFile.mk ("command.rs") 154 2 ("Command") ∈ patternFiles
    ∧ ¬ (SourceFile.mk ("command.rs") 154 2 ("Command")).testCount = 1 := by
  decide

/-- C6 (amended): every pattern source file contains at least one unit test,
and exactly one except command.rs and mediator.rs, which each contain two (a
behaviour test plus a should_panic test). -/
theorem file_test_counts_amended :
    ∀ f ∈ patternFiles, 1 ≤ f.testCount
      ∧ (f.testCount = 1
        ∨ (f.name = "command.rs" ∨ f.name = "mediator.rs") ∧ f.testCount = 2) := by
  decide

/-- Witness for amended C6: state.rs has exactly one test. -/
theorem file_test_counts_amended_witness :
    1 ≤ (SourceFile.mk ("state.rs") 144 1 ("State")).testCount
    ∧ ((SourceFile.mk ("state.rs") 144 1 ("State")).testCount = 1
      ∨ ((SourceFile.mk ("state.rs") 144 1 ("State")).name = "command.rs"
        ∨ (SourceFile.mk ("state.rs") 144 1 ("State")).name = "mediator.rs")
        ∧ (SourceFile.mk ("state.rs") 144 1 ("State")).testCount = 2) :=
  file_test_counts_amended (SourceFile.mk ("state.rs") 144 1 ("State")) (by decide)

/-- C7 counterexample: abstract_factory.rs is a pattern source file of the
repository and is 204 lines long, outside the claimed 40 to 150 range. -/
theorem file_line_bounds_cex :
    SourceFile.mk ("abstract_factory.rs") 204 1 ("Abstract Factory") ∈ patternFiles
    ∧ ¬ (40 ≤ (SourceFile.mk ("abstract_factory.rs") 204 1 ("Abstract Factory")).lineCount
        ∧ (SourceFile.mk ("abstract_factory.rs") 204 1 ("Abstract Factory")).lineCount
          ≤ 150) := by
  decide

/-- C7 (amended): every pattern source file is between 40 and 204 lines long,
and fifteen of the twenty are within the typical 40 to 150 range. -/
theorem file_line_bounds_amended :
    (∀ f ∈ patternFiles, 40 ≤ f.lineCount ∧ f.lineCount ≤ 204)
    ∧ (patternFiles.filter
        (fun f => decide (40 ≤ f.lineCount) && decide (f.lineCount ≤ 150))).length = 15 := by
  decide

/-- Witness for amended C7: prototype.rs, the shortest file, is within 40 to
204 lines. -/
theorem file_line_bounds_amended_witness :
    40 ≤ (SourceFile.mk ("prototype.rs") 44 1 ("Prototype")).lineCount
    ∧ (SourceFile.mk ("prototype.rs") 44 1 ("Prototype")).lineCount ≤ 204 :=
  file_line_bounds_amended.1 (SourceFile.mk ("prototype.rs") 44 1 ("Prototype")) (by decide)

/-- C8 counterexample: adapter.rs is a pattern source file of the repository
and demonstrates the Adapter pattern, which is outside the specification's
list of nineteen patterns. -/
theorem file_pattern_list_cex :
    SourceFile.mk ("adapter.rs") 86 1 ("Adapter") ∈ patternFiles
    ∧ (SourceFile.mk ("adapter.rs") 86 1 ("Adapter")).patternName ∉ specPatterns := by
  decide

/-- C8 (amended): every pattern source file demonstrates exactly one pattern,
drawn from the specification's list of nineteen except for adapter.rs, which
demonstrates the Adapter pattern. -/
theorem file_pattern_list_amended :
    ∀ f ∈ patternFiles, f.patternName ∈ specPatterns
      ∨ (f.name = "adapter.rs" ∧ f.patternName = "Adapter") := by
  decide

/-- Witness for amended C8: state.rs demonstrates the State pattern, which is
in the specification's list. -/
theorem file_pattern_list_amended_witness :
    (SourceFile.mk ("state.rs") 144 1 ("State")).patternName ∈ specPatterns
    ∨ ((SourceFile.mk ("state.rs") 144 1 ("State")).name = "adapter.rs"
      ∧ (SourceFile.mk ("state.rs") 144 1 ("State")).patternName = "Adapter") :=
  file_pattern_list_amended (SourceFile.mk ("state.rs") 144 1 ("State")) (by decide)

end MainTheorems
